import Mathlib

/-!
# Verification of the `BookingCalendar` widget

A shallow embedding of `src/components/BookingCalendar.tsx`, a React booking
widget.  The component state (eight `useState` hooks) becomes a Lean
structure; each handler becomes a pure function from the old state (plus the
outcomes of the external collaborator calls, passed in as oracle arguments)
to the new state together with the list of network effects the handler
performed, in order.  JavaScript string falsiness (`!s`) is modelled as
equality with the empty string, and a thrown JavaScript value is either an
`Error` object carrying a message or some other value.
-/

namespace BookingCalendar

/-- A time slot as delivered by the availability service:
`{ time: "HH:mm", available: boolean }`. -/
structure TimeSlot where
  time : String
  available : Bool
deriving Repr, DecidableEq

/-- A catalog resource (cabin), from the external resource catalog:
`{ id, name, description, pricePerMinute }`. -/
structure Cabin where
  id : String
  name : String
  description : String
  pricePerMinute : Int
deriving Repr, DecidableEq

/-- A civil calendar date, the local-wall-clock value of a JS `Date`.
Only the date part matters to the widget: `formatDateTimeForWebhook`
overwrites hours, minutes and seconds, and `format(date, 'yyyy-MM-dd')`
reads only the date part. -/
structure CivilDate where
  year : Int
  month : Int
  day : Int
deriving Repr, DecidableEq

/-- The component state: one field per `useState` hook of
`BookingCalendar`, with each hook's initial value recorded in
`initialState` below (the date hook starts at `new Date()`, so the
initial date is a parameter). -/
structure State where
  selectedDate : CivilDate
  selectedCabin : String
  selectedTime : String
  loading : Bool
  timeSlots : List TimeSlot
  error : String
  fullName : String
  email : String
deriving Repr, DecidableEq

/-- The initial state of the widget: every hook except the date starts
empty/false/`[]`. -/
def initialState (today : CivilDate) : State :=
  { selectedDate := today
    selectedCabin := ""
    selectedTime := ""
    loading := false
    timeSlots := []
    error := ""
    fullName := ""
    email := "" }

/-- A thrown JavaScript value: either an `Error` instance with its
`message`, or any other value (the `instanceof Error` test fails). -/
inductive JsValue where
  | jsError (message : String)
  | nonErrorValue
deriving Repr, DecidableEq

/-- `err instanceof Error ? err.message : 'Įvyko klaida!'` from the
`catch` branch of `handleBooking`. -/
def caughtMessage : JsValue → String
  | .jsError m => m
  | .nonErrorValue => "Įvyko klaida!"

/-! ## Availability loading (`loadTimeSlots`) -/

/-- `loadTimeSlots`: sets `loading := true` and `error := ''`, awaits
`fetchAvailableTimeSlots` (its outcome is the oracle argument `result`),
then on success stores the returned slots, on a throw sets the generic
load-failure message and clears the slots; the `finally` branch clears
`loading` on both paths.  The returned state is the state after the
handler has settled. -/
def loadTimeSlots (s : State) (result : Except JsValue (List TimeSlot)) : State :=
  let inFlight := { s with loading := true, error := "" }
  match result with
  | .ok slots => { inFlight with timeSlots := slots, loading := false }
  | .error _ =>
      { inFlight with
          error := "Failed to load available time slots"
          timeSlots := []
          loading := false }

/-! ## Resource selection (`handleCabinSelect`) -/

/-- `handleCabinSelect`: stores the clicked cabin id and clears the
selected time. -/
def handleCabinSelect (cabinId : String) (s : State) : State :=
  { s with selectedCabin := cabinId, selectedTime := "" }

/-! ## Webhook timestamp formatting (`formatDateTimeForWebhook`)

`formatDateTimeForWebhook` builds a JS `Date` from the selected calendar
date, overwrites its hours/minutes from the `"HH:mm"` time string and
zeroes the seconds — all in the browser's local timezone — then renders
that instant in the `Europe/Vilnius` timezone with the `sv` locale
(`"YYYY-MM-DD HH:mm:ss"`), turns the space into a `T` and appends the
hardcoded suffix `"+02:00"`.  We model timezones by their UTC offsets in
minutes, passed as explicit environment arguments (`localOffset` for the
browser, `vilniusOffset` for `Europe/Vilnius` at the instant in
question), and wall-clock instants as minutes since the Unix epoch via
the standard civil-calendar algorithms. -/

/-- Days from civil date (proleptic Gregorian), 1970-01-01 ↦ 0. -/
def daysFromCivil (y m d : Int) : Int :=
  let y' : Int := if m ≤ 2 then y - 1 else y
  let era : Int := Int.fdiv y' 400
  let yoe : Int := y' - era * 400
  let mp : Int := Int.emod (m + 9) 12
  let doy : Int := Int.fdiv (153 * mp + 2) 5 + d - 1
  let doe : Int := yoe * 365 + Int.fdiv yoe 4 - Int.fdiv yoe 100 + doy
  era * 146097 + doe - 719468

/-- Civil date from a day count (inverse of `daysFromCivil`). -/
def civilFromDays (z : Int) : CivilDate :=
  let z' : Int := z + 719468
  let era : Int := Int.fdiv z' 146097
  let doe : Int := z' - era * 146097
  let yoe : Int :=
    Int.fdiv (doe - Int.fdiv doe 1460 + Int.fdiv doe 36524 - Int.fdiv doe 146096) 365
  let y : Int := yoe + era * 400
  let doy : Int := doe - (365 * yoe + Int.fdiv yoe 4 - Int.fdiv yoe 100)
  let mp : Int := Int.fdiv (5 * doy + 2) 153
  let d : Int := doy - Int.fdiv (153 * mp + 2) 5 + 1
  let m : Int := mp + (if mp < 10 then 3 else -9)
  { year := if m ≤ 2 then y + 1 else y, month := m, day := d }

/-- Minutes since the Unix epoch of a wall-clock `(date, hh:mm)`. -/
def wallClockMinutes (date : CivilDate) (hh mm : Int) : Int :=
  daysFromCivil date.year date.month date.day * 1440 + hh * 60 + mm

/-- Zero-pad to two digits (how the `sv` locale prints month, day,
hour, minute and second fields). -/
def pad2 (n : Int) : String :=
  if n < 10 then "0" ++ toString n else toString n

/-- Render a wall-clock minute count the way
`toLocaleString('sv', ...)` renders the corresponding moment:
`"YYYY-MM-DD HH:mm:ss"` (seconds are always 0 here because the code
calls `setSeconds(0)`). -/
def svFormatMinutes (t : Int) : String :=
  let date := civilFromDays (Int.fdiv t 1440)
  let rem := Int.emod t 1440
  toString date.year ++ "-" ++ pad2 date.month ++ "-" ++ pad2 date.day
    ++ " " ++ pad2 (Int.fdiv rem 60) ++ ":" ++ pad2 (Int.emod rem 60) ++ ":00"

/-- Replace the first occurrence of a character in a character list —
JS `String.prototype.replace` with a one-character string pattern
replaces only the first match. -/
def jsReplaceFirstAux (c r : Char) : List Char → List Char
  | [] => []
  | x :: xs => if x = c then r :: xs else x :: jsReplaceFirstAux c r xs

/-- `s.replace(c, r)` for one-character patterns. -/
def jsReplaceFirst (s : String) (c r : Char) : String :=
  ⟨jsReplaceFirstAux c r s.data⟩

/-- Split a character list at every occurrence of a separator
character, the way JS `String.prototype.split` does. -/
def jsSplitAux (c : Char) : List Char → List Char → List (List Char)
  | [], acc => [acc.reverse]
  | x :: xs, acc =>
      if x = c then acc.reverse :: jsSplitAux c xs []
      else jsSplitAux c xs (x :: acc)

/-- `s.split(c)` for a one-character separator. -/
def jsSplit (s : String) (c : Char) : List String :=
  (jsSplitAux c s.data []).map String.mk

/-- The value of a decimal digit string — `parseInt(s, 10)` restricted
to the well-formed all-digit inputs the widget produces. -/
def decimalValue : List Char → Nat → Nat
  | [], acc => acc
  | c :: cs, acc => decimalValue cs (acc * 10 + (c.toNat - Char.toNat '0'))

/-- `parseInt(s, 10)` on an all-digit string. -/
def jsParseInt (s : String) : Int :=
  (decimalValue s.data 0 : Nat)

/-- `timeString.split(':')` followed by `parseInt(·, 10)` on the first
two parts, for well-formed `"HH:mm"` inputs. -/
def parseTimeString (s : String) : Int × Int :=
  let parts := jsSplit s ':'
  (jsParseInt (parts.getD 0 ""), jsParseInt (parts.getD 1 ""))

/-- `formatDateTimeForWebhook(date, timeString)`: the local wall clock
`(date, HH:mm:00)` denotes the instant `wall − localOffset` (minutes
since epoch); `toLocaleString('sv', timeZone 'Europe/Vilnius')` renders
that instant at Vilnius wall time `instant + vilniusOffset`; the space
becomes `T` and the hardcoded `"+02:00"` is appended. -/
def formatDateTimeForWebhook (localOffset vilniusOffset : Int)
    (date : CivilDate) (timeString : String) : String :=
  let hm := parseTimeString timeString
  let wall := wallClockMinutes date hm.1 hm.2
  jsReplaceFirst (svFormatMinutes (wall - localOffset + vilniusOffset)) ' ' 'T'
    ++ "+02:00"

/-! ## Submit-control disabling

Line 260 of the source:
`disabled={loading || !selectedCabin || !selectedTime || !fullName || !email}`. -/

/-- The `disabled` attribute of the submit button. -/
def submitDisabled (s : State) : Bool :=
  s.loading || s.selectedCabin == "" || s.selectedTime == ""
    || s.fullName == "" || s.email == ""

/-! ## Booking submission (`handleBooking`) -/

/-- `format(selectedDate, 'yyyy-MM-dd')`. -/
def formatYMD (d : CivilDate) : String :=
  toString d.year ++ "-" ++ pad2 d.month ++ "-" ++ pad2 d.day

/-- The JSON body posted to the webhook:
`{ fullName, email, dateTime, timeZone, cabin, cabinName }`. -/
structure WebhookBody where
  fullName : String
  email : String
  dateTime : String
  timeZone : String
  cabin : String
  cabinName : String
deriving Repr, DecidableEq

/-- The record passed to `createBooking`: the spread of `bookingData`
(`cabin`, `date`, `time`) plus `userId`, `userEmail` and `status`. -/
structure BookingRecord where
  cabin : String
  date : String
  time : String
  userId : String
  userEmail : String
  status : String
deriving Repr, DecidableEq

/-- A network effect performed by `handleBooking`, in program order:
the `fetch` POST to the webhook URL, or the `createBooking` call. -/
inductive Effect where
  | webhookPost (body : WebhookBody)
  | createBookingCall (record : BookingRecord)
deriving Repr, DecidableEq

/-- The webhook body `handleBooking` builds:
`cabinName` is `cabins.find(c => c.id === selectedCabin)?.name || ''`. -/
def mkWebhookBody (localOffset vilniusOffset : Int) (cabins : List Cabin)
    (s : State) : WebhookBody :=
  { fullName := s.fullName
    email := s.email
    dateTime := formatDateTimeForWebhook localOffset vilniusOffset
      s.selectedDate s.selectedTime
    timeZone := "Europe/Vilnius"
    cabin := s.selectedCabin
    cabinName :=
      match (cabins.find? fun c => c.id == s.selectedCabin) with
      | some c => if c.name == "" then "" else c.name
      | none => "" }

/-- The persistence record `handleBooking` builds:
`userId` is `user?.uid || 'anonymous'` (the `||` also replaces an empty
uid by the sentinel). -/
def mkBookingRecord (user : Option String) (s : State) : BookingRecord :=
  { cabin := s.selectedCabin
    date := formatYMD s.selectedDate
    time := s.selectedTime
    userId :=
      match user with
      | some uid => if uid == "" then "anonymous" else uid
      | none => "anonymous"
    userEmail := s.email
    status := "confirmed" }

/-- The `fetch` call resolves with a `Response`; `handleBooking` never
inspects it, so only its `ok` flag is modelled (an HTTP error response
has `ok = false` but does not throw). -/
structure FetchResponse where
  ok : Bool
deriving Repr, DecidableEq

/-- `handleBooking`: if any of cabin, time, full name, email is empty
(JS falsy), sets the localized validation error and returns at once —
no loading flag, no network.  Otherwise sets `loading := true`,
clears the error, POSTs the webhook body (outcome: oracle argument
`webhookResult`), and if that await did not throw, calls
`createBooking` (outcome: oracle argument `createResult`).  On success
of both it resets cabin, time, slots, full name, email and error; on a
throw from either await the `catch` branch stores the thrown error's
message (or the generic fallback for a non-`Error` value) and the
selections are left untouched.  The `finally` branch clears `loading`
on every path that reached it.  Returns the settled state and the list
of network calls made, in order. -/
def handleBooking (localOffset vilniusOffset : Int) (cabins : List Cabin)
    (user : Option String) (webhookResult : Except JsValue FetchResponse)
    (createResult : Except JsValue Unit) (s : State) : State × List Effect :=
  if s.selectedCabin == "" || s.selectedTime == "" || s.fullName == "" || s.email == "" then
    ({ s with error := "Prašome užpildyti visus laukus" }, [])
  else
    let inFlight := { s with loading := true, error := "" }
    let body := mkWebhookBody localOffset vilniusOffset cabins s
    let record := mkBookingRecord user s
    match webhookResult with
    | .error e =>
        ({ inFlight with error := caughtMessage e, loading := false },
         [.webhookPost body])
    | .ok _ =>
        match createResult with
        | .error e =>
            ({ inFlight with error := caughtMessage e, loading := false },
             [.webhookPost body, .createBookingCall record])
        | .ok _ =>
            ({ inFlight with
                selectedCabin := ""
                selectedTime := ""
                timeSlots := []
                fullName := ""
                email := ""
                error := ""
                loading := false },
             [.webhookPost body, .createBookingCall record])

/-! ## Concrete states used by witnesses -/

/-- A fully populated state: the spec's example selection
(`sauna-a`, 2025-06-10, 14:30) with contact details filled in. -/
def filledState : State :=
  { selectedDate := ⟨2025, 6, 10⟩
    selectedCabin := "sauna-a"
    selectedTime := "14:30"
    loading := false
    timeSlots := [⟨"14:30", true⟩]
    error := ""
    fullName := "Jonas Jonaitis"
    email := "jonas@pavyzdys.lt" }

/-- The spec's validation example: everything populated except the
full name. -/
def noNameState : State :=
  { filledState with fullName := "" }

/-! ## Helper lemmas -/

/-- With a non-empty cabin, time, full name and email, the validation
guard of `handleBooking` is false. -/
lemma validationGuard_false {s : State}
    (h1 : s.selectedCabin ≠ "") (h2 : s.selectedTime ≠ "")
    (h3 : s.fullName ≠ "") (h4 : s.email ≠ "") :
    (s.selectedCabin == "" || s.selectedTime == "" || s.fullName == ""
      || s.email == "") = false := by
  simp [h1, h2, h3, h4]

/-- When both timezone offsets coincide, the local→Vilnius conversion
is the identity on wall-clock minutes. -/
lemma formatDateTimeForWebhook_same_offset (off : Int) (d : CivilDate)
    (tm : String) :
    formatDateTimeForWebhook off off d tm =
      jsReplaceFirst (svFormatMinutes (wallClockMinutes d (parseTimeString tm).1
        (parseTimeString tm).2)) ' ' 'T' ++ "+02:00" := by
  simp only [formatDateTimeForWebhook, Int.sub_add_cancel]

/-! ## Claims -/

/-- C1: whenever cabin, time, full name or email is empty, triggering
`handleBooking` only sets the localized validation error: the returned
effect list is empty (neither the webhook `fetch` nor `createBooking`
happens), and every other state field — the loading flag included — is
left exactly as it was. -/
theorem validation_failure_no_network (localOffset vilniusOffset : Int)
    (cabins : List Cabin) (user : Option String)
    (webhookResult : Except JsValue FetchResponse)
    (createResult : Except JsValue Unit) (s : State)
    (h : s.selectedCabin = "" ∨ s.selectedTime = "" ∨ s.fullName = ""
      ∨ s.email = "") :
    handleBooking localOffset vilniusOffset cabins user webhookResult
        createResult s
      = ({ s with error := "Prašome užpildyti visus laukus" }, []) := by
  rcases h with h | h | h | h <;> simp [handleBooking, h]

/-- C1 witness: the spec's example — empty full name, all other fields
populated — submits to no network call, sets the validation error and
leaves the loading flag untouched. -/
theorem validation_failure_no_network_witness :
    noNameState.fullName = "" ∧
    handleBooking 180 180 [] none (.ok ⟨true⟩) (.ok ()) noNameState
      = ({ noNameState with error := "Prašome užpildyti visus laukus" }, []) :=
  ⟨rfl, validation_failure_no_network 180 180 [] none (.ok ⟨true⟩) (.ok ())
    noNameState (.inr (.inr (.inl rfl)))⟩

/-- C2: when validation passes and both the webhook call and
`createBooking` succeed, cabin, time, full name, email, the slot list
and the error message all return to their initial empty values. -/
theorem success_resets_fields (localOffset vilniusOffset : Int)
    (cabins : List Cabin) (user : Option String) (resp : FetchResponse)
    (s : State)
    (h1 : s.selectedCabin ≠ "") (h2 : s.selectedTime ≠ "")
    (h3 : s.fullName ≠ "") (h4 : s.email ≠ "") :
    let r := (handleBooking localOffset vilniusOffset cabins user
      (.ok resp) (.ok ()) s).1
    r.selectedCabin = "" ∧ r.selectedTime = "" ∧ r.fullName = ""
      ∧ r.email = "" ∧ r.timeSlots = [] ∧ r.error = "" := by
  simp [handleBooking, validationGuard_false h1 h2 h3 h4]

/-- C2 witness: a concrete fully-successful submission from the
populated example state clears all six fields. -/
theorem success_resets_fields_witness :
    filledState.selectedCabin ≠ "" ∧ filledState.selectedTime ≠ ""
      ∧ filledState.fullName ≠ "" ∧ filledState.email ≠ "" ∧
    (let r := (handleBooking 180 180 [] none (.ok ⟨true⟩) (.ok ())
      filledState).1
     r.selectedCabin = "" ∧ r.selectedTime = "" ∧ r.fullName = ""
       ∧ r.email = "" ∧ r.timeSlots = [] ∧ r.error = "") :=
  ⟨by decide, by decide, by decide, by decide,
    success_resets_fields 180 180 [] none ⟨true⟩ filledState
      (by decide) (by decide) (by decide) (by decide)⟩

/-- C3 counterexample: the claim "the error message is … hence
non-empty" fails.  From the populated example state, a submission that
passes validation and whose webhook `fetch` throws an `Error` whose
`message` is the empty string ends with `error = ""`: the catch branch
stores `err.message` verbatim, so the displayed message is empty. -/
theorem failure_error_can_be_empty :
    filledState.selectedCabin ≠ "" ∧ filledState.selectedTime ≠ ""
      ∧ filledState.fullName ≠ "" ∧ filledState.email ≠ "" ∧
    (handleBooking 180 180 [] none (.error (.jsError "")) (.ok ())
      filledState).1.error = "" := by
  decide

/-- C3 (amended): when validation passes and the webhook call or the
persistence call throws, the selection and contact fields (and the
selected date) retain their pre-submission values, the loading flag is
cleared, and the error message is set to the thrown error's `message`
when the thrown value is an `Error` — even when that message is empty —
and to the generic fallback otherwise. -/
theorem failure_preserves_fields_and_surfaces_message
    (localOffset vilniusOffset : Int) (cabins : List Cabin)
    (user : Option String) (webhookResult : Except JsValue FetchResponse)
    (createResult : Except JsValue Unit) (s : State) (e : JsValue)
    (h1 : s.selectedCabin ≠ "") (h2 : s.selectedTime ≠ "")
    (h3 : s.fullName ≠ "") (h4 : s.email ≠ "")
    (hfail : webhookResult = .error e ∨
      (∃ resp, webhookResult = .ok resp ∧ createResult = .error e)) :
    let r := (handleBooking localOffset vilniusOffset cabins user
      webhookResult createResult s).1
    r.selectedCabin = s.selectedCabin ∧ r.selectedTime = s.selectedTime
      ∧ r.selectedDate = s.selectedDate ∧ r.fullName = s.fullName
      ∧ r.email = s.email ∧ r.error = caughtMessage e
      ∧ r.loading = false := by
  rcases hfail with h | ⟨resp, hw, hc⟩
  · subst h
    simp [handleBooking, validationGuard_false h1 h2 h3 h4]
  · subst hw; subst hc
    simp [handleBooking, validationGuard_false h1 h2 h3 h4]

/-- C3 witness: a concrete persistence failure (`Error` with message
"DB down") after a successful webhook call keeps every selection, shows
"DB down" and clears the loading flag. -/
theorem failure_preserves_fields_witness :
    filledState.selectedCabin ≠ "" ∧ filledState.selectedTime ≠ ""
      ∧ filledState.fullName ≠ "" ∧ filledState.email ≠ "" ∧
    (let r := (handleBooking 180 180 [] none (.ok ⟨true⟩)
      (.error (.jsError "DB down")) filledState).1
     r.selectedCabin = filledState.selectedCabin
       ∧ r.selectedTime = filledState.selectedTime
       ∧ r.selectedDate = filledState.selectedDate
       ∧ r.fullName = filledState.fullName ∧ r.email = filledState.email
       ∧ r.error = caughtMessage (.jsError "DB down")
       ∧ r.loading = false) :=
  ⟨by decide, by decide, by decide, by decide,
    failure_preserves_fields_and_surfaces_message 180 180 [] none
      (.ok ⟨true⟩) (.error (.jsError "DB down")) filledState
      (.jsError "DB down") (by decide) (by decide) (by decide) (by decide)
      (.inr ⟨⟨true⟩, rfl, rfl⟩)⟩

/-- C4: on a load failure the slot list becomes empty and the generic
"failed to load" message is set; on load success the slot list
afterwards is exactly the returned sequence, whatever slots were there
before (no merging). -/
theorem load_replaces_or_clears_slots (s : State) :
    (∀ e : JsValue,
      (loadTimeSlots s (.error e)).timeSlots = [] ∧
      (loadTimeSlots s (.error e)).error
        = "Failed to load available time slots") ∧
    (∀ slots : List TimeSlot,
      (loadTimeSlots s (.ok slots)).timeSlots = slots) := by
  refine ⟨fun e => ⟨?_, ?_⟩, fun slots => ?_⟩ <;> simp [loadTimeSlots]

/-- C5: under the environment assumption the code relies on — the
browser's local UTC offset equals the `Europe/Vilnius` offset at the
selected moment — the webhook timestamp combines the selected date and
time-of-day and appends the fixed `+02:00` suffix: for date 2025-06-10
and time "14:30" it is exactly "2025-06-10T14:30:00+02:00", and the
webhook body's timezone field is always "Europe/Vilnius". -/
theorem webhook_timestamp_example (localOffset vilniusOffset : Int)
    (h : localOffset = vilniusOffset) :
    formatDateTimeForWebhook localOffset vilniusOffset ⟨2025, 6, 10⟩ "14:30"
        = "2025-06-10T14:30:00+02:00" ∧
    ∀ (cabins : List Cabin) (s : State),
      (mkWebhookBody localOffset vilniusOffset cabins s).timeZone
        = "Europe/Vilnius" := by
  subst h
  refine ⟨?_, fun cabins s => rfl⟩
  rw [formatDateTimeForWebhook_same_offset]
  decide

/-- C5 witness: at the true June offset of Europe/Vilnius (UTC+3, 180
minutes) for both the browser and the target timezone, the example
timestamp and timezone field come out as claimed. -/
theorem webhook_timestamp_example_witness :
    formatDateTimeForWebhook 180 180 ⟨2025, 6, 10⟩ "14:30"
        = "2025-06-10T14:30:00+02:00" ∧
    (mkWebhookBody 180 180 [] filledState).timeZone = "Europe/Vilnius" :=
  ⟨(webhook_timestamp_example 180 180 rfl).1,
    (webhook_timestamp_example 180 180 rfl).2 [] filledState⟩

/-- C6: the submit control is disabled exactly when the loading flag is
set or one of cabin, time, full name, email is empty. -/
theorem submitDisabled_iff (s : State) :
    submitDisabled s = true ↔
      s.loading = true ∨ s.selectedCabin = "" ∨ s.selectedTime = ""
        ∨ s.fullName = "" ∨ s.email = "" := by
  simp [submitDisabled]
  tauto

/-- C7: immediately after any resource selection the selected time is
empty — vacuously so when no time had been chosen, and the previously
chosen time is cleared otherwise — while the clicked cabin id is
stored. -/
theorem cabinSelect_clears_time (cabinId : String) (s : State) :
    (handleCabinSelect cabinId s).selectedTime = "" ∧
    (handleCabinSelect cabinId s).selectedCabin = cabinId := by
  exact ⟨rfl, rfl⟩

/-- C8: in a validated submission the webhook POST is always the first
effect.  When the webhook `fetch` throws, the effect trace is that POST
alone — `createBooking` never runs.  When the `fetch` resolves — with an
HTTP error response (`ok = false`) as much as with a success — the trace
is exactly the POST followed by the `createBooking` call, for every
persistence outcome: a persistence failure after a successful webhook
triggers no compensating effect on the webhook side. -/
theorem webhook_before_persistence_no_rollback (localOffset vilniusOffset : Int)
    (cabins : List Cabin) (user : Option String) (s : State)
    (h1 : s.selectedCabin ≠ "") (h2 : s.selectedTime ≠ "")
    (h3 : s.fullName ≠ "") (h4 : s.email ≠ "") :
    (∀ (e : JsValue) (createResult : Except JsValue Unit),
      (handleBooking localOffset vilniusOffset cabins user (.error e)
          createResult s).2
        = [.webhookPost (mkWebhookBody localOffset vilniusOffset cabins s)]) ∧
    (∀ (resp : FetchResponse) (createResult : Except JsValue Unit),
      (handleBooking localOffset vilniusOffset cabins user (.ok resp)
          createResult s).2
        = [.webhookPost (mkWebhookBody localOffset vilniusOffset cabins s),
           .createBookingCall (mkBookingRecord user s)]) := by
  constructor
  · intro e createResult
    simp [handleBooking, validationGuard_false h1 h2 h3 h4]
  · intro resp createResult
    cases createResult <;>
      simp [handleBooking, validationGuard_false h1 h2 h3 h4]

/-- C8 witness: from the populated example state, a thrown webhook call
leaves the POST as the only effect, and a resolved-but-not-ok webhook
response followed by a failing persistence call yields exactly the POST
then the `createBooking` call. -/
theorem webhook_before_persistence_witness :
    filledState.selectedCabin ≠ "" ∧ filledState.selectedTime ≠ ""
      ∧ filledState.fullName ≠ "" ∧ filledState.email ≠ "" ∧
    (handleBooking 180 180 [] none (.error .nonErrorValue)
        (.ok ()) filledState).2
      = [.webhookPost (mkWebhookBody 180 180 [] filledState)] ∧
    (handleBooking 180 180 [] none (.ok ⟨false⟩)
        (.error (.jsError "DB down")) filledState).2
      = [.webhookPost (mkWebhookBody 180 180 [] filledState),
         .createBookingCall (mkBookingRecord none filledState)] :=
  ⟨by decide, by decide, by decide, by decide,
    (webhook_before_persistence_no_rollback 180 180 [] none filledState
      (by decide) (by decide) (by decide) (by decide)).1 .nonErrorValue (.ok ()),
    (webhook_before_persistence_no_rollback 180 180 [] none filledState
      (by decide) (by decide) (by decide) (by decide)).2 ⟨false⟩
      (.error (.jsError "DB down"))⟩

/-- C9: the selected date is not among the fields reset by a fully
successful submission — it keeps its pre-submission value while cabin,
time, full name, email, the slot list and the error are cleared. -/
theorem success_keeps_selectedDate (localOffset vilniusOffset : Int)
    (cabins : List Cabin) (user : Option String) (resp : FetchResponse)
    (s : State)
    (h1 : s.selectedCabin ≠ "") (h2 : s.selectedTime ≠ "")
    (h3 : s.fullName ≠ "") (h4 : s.email ≠ "") :
    let r := (handleBooking localOffset vilniusOffset cabins user
      (.ok resp) (.ok ()) s).1
    r.selectedDate = s.selectedDate ∧ r.selectedCabin = ""
      ∧ r.selectedTime = "" ∧ r.fullName = "" ∧ r.email = ""
      ∧ r.timeSlots = [] ∧ r.error = "" := by
  simp [handleBooking, validationGuard_false h1 h2 h3 h4]

/-- C9 witness: the concrete fully-successful submission keeps the
example date 2025-06-10 while everything else clears. -/
theorem success_keeps_selectedDate_witness :
    filledState.selectedCabin ≠ "" ∧ filledState.selectedTime ≠ ""
      ∧ filledState.fullName ≠ "" ∧ filledState.email ≠ "" ∧
    (let r := (handleBooking 180 180 [] none (.ok ⟨true⟩) (.ok ())
      filledState).1
     r.selectedDate = filledState.selectedDate ∧ r.selectedCabin = ""
       ∧ r.selectedTime = "" ∧ r.fullName = "" ∧ r.email = ""
       ∧ r.timeSlots = [] ∧ r.error = "") :=
  ⟨by decide, by decide, by decide, by decide,
    success_keeps_selectedDate 180 180 [] none ⟨true⟩ filledState
      (by decide) (by decide) (by decide) (by decide)⟩

/-- C10: once an availability load settles — on any outcome — the
loading flag is false, and once a validated submission settles — on any
webhook and persistence outcome — the loading flag is false: both
handlers clear it in their `finally` branch, so the widget cannot stay
stuck loading after the in-flight operation finishes. -/
theorem loading_cleared_after_settling (s : State) :
    (∀ result : Except JsValue (List TimeSlot),
      (loadTimeSlots s result).loading = false) ∧
    (s.selectedCabin ≠ "" → s.selectedTime ≠ "" → s.fullName ≠ ""
      → s.email ≠ "" →
      ∀ (localOffset vilniusOffset : Int) (cabins : List Cabin)
        (user : Option String) (webhookResult : Except JsValue FetchResponse)
        (createResult : Except JsValue Unit),
      (handleBooking localOffset vilniusOffset cabins user webhookResult
        createResult s).1.loading = false) := by
  constructor
  · intro result
    cases result <;> simp [loadTimeSlots]
  · intro h1 h2 h3 h4 localOffset vilniusOffset cabins user webhookResult
      createResult
    cases webhookResult with
    | error e => simp [handleBooking, validationGuard_false h1 h2 h3 h4]
    | ok resp =>
        cases createResult <;>
          simp [handleBooking, validationGuard_false h1 h2 h3 h4]

/-- C10 witness: a failing load fired right after a cabin selection on
the fresh widget — selected time and contact fields still empty — ends
with the loading flag false, and so does a validated submission from
the populated example state whose persistence call throws. -/
theorem loading_cleared_after_settling_witness :
    (loadTimeSlots (handleCabinSelect "sauna-a" (initialState ⟨2025, 6, 10⟩))
      (.error .nonErrorValue)).loading = false ∧
    filledState.selectedCabin ≠ "" ∧ filledState.selectedTime ≠ ""
      ∧ filledState.fullName ≠ "" ∧ filledState.email ≠ "" ∧
    (handleBooking 180 180 [] none (.ok ⟨true⟩)
      (.error (.jsError "DB down")) filledState).1.loading = false :=
  ⟨(loading_cleared_after_settling
      (handleCabinSelect "sauna-a" (initialState ⟨2025, 6, 10⟩))).1
      (.error .nonErrorValue),
    by decide, by decide, by decide, by decide,
    (loading_cleared_after_settling filledState).2 (by decide) (by decide)
      (by decide) (by decide) 180 180 [] none (.ok ⟨true⟩)
      (.error (.jsError "DB down"))⟩

end BookingCalendar
